import Mathlib

/-!
ews-oauth-proxy: credential lifecycle

A shallow embedding of `auth/devicecode.go`, `auth/token_manager.go` and of
`loadEnvFile` from `main.go`.

Conventions of the embedding

* Instants (`time.Time`) are integers (`Int`) counting nanoseconds; `Time.Add` is
  exact.
* Durations (`time.Duration`) are integers (`Int`) holding 64-bit signed
  nanosecond counts: arithmetic on them wraps (`wrap64`), and `Time.Sub`
  saturates as the Go library documents.
* Go `int` is 64 bits wide.
* Everything the network, the disk and the clock answer is an explicit input.
* The steps a run takes (a device-code flow being started or completed, the
  token file being restored or written, a refresh grant being posted or
  stored, the tokens being emptied by `Start`, the background loop being
  launched) are appended to a trace carried next to the `TokenManager`.
-/

namespace EwsOauthProxy

/-! ## Time -/

/-- Smallest `time.Duration`, `-2^63` nanoseconds. -/
def minDuration : Int := -9223372036854775808

/-- Largest `time.Duration`, `2^63 - 1` nanoseconds. -/
def maxDuration : Int := 9223372036854775807

/-- Two's-complement reduction of an integer to the signed 64-bit range. -/
def wrap64 (x : Int) : Int :=
  (x + 9223372036854775808) % 18446744073709551616 - 9223372036854775808

/-- `time.Second`. -/
def Second : Int := 1000000000

/-- `time.Minute`. -/
def Minute : Int := 60 * Second

/-- The Go expression `time.Duration(n) * time.Second` for an `int` n: a 64-bit product. -/
def secondsToDuration (n : Int) : Int := wrap64 (n * Second)

/-- `t.Add(d)`. -/
def Time.Add (t : Int) (d : Int) : Int := t + d

/-- `t.Sub(u)`: the difference, clamped to the range of `time.Duration`. -/
def Time.Sub (t u : Int) : Int :=
  if t - u < minDuration then minDuration
  else if maxDuration < t - u then maxDuration
  else t - u

/-- `time.Until(t)` read at the instant `now`. -/
def timeUntil (now t : Int) : Int := Time.Sub t now

/-- The zero `time.Time` (January 1, year 1, 00:00 UTC) in nanoseconds relative to the Unix epoch. -/
def zeroTime : Int := -62135596800 * Second

/-! ## Wire types (`devicecode.go`) -/

/-- The struct `DeviceCodeResponse`. -/
structure DeviceCodeResponse where
  DeviceCode : String
  UserCode : String
  VerificationURI : String
  ExpiresIn : Int
  Interval : Int
  Message : String
deriving DecidableEq, Repr

/-- The struct `TokenResponse`. -/
structure TokenResponse where
  AccessToken : String
  RefreshToken : String
  ExpiresIn : Int
  Error : String
deriving DecidableEq, Repr

/-- An HTTP response as the code consumes it: the status code, the raw body, and what JSON
decoding of the body into a zero-valued `α` leaves behind: the decoded value and the decoder's
error (`none` when decoding succeeded). -/
structure HTTPResponse (α : Type) where
  StatusCode : Int
  body : String
  decoded : α
  decodeErr : Option String
deriving DecidableEq, Repr

/-- The result of one `client.Do(req)`. -/
inductive Exchange (α : Type) where
  | transportError (msg : String)
  | response (resp : HTTPResponse α)
deriving DecidableEq, Repr

/-- Error values returned by the package. -/
inductive AuthError where
  | newRequest (msg : String)
  | transport (msg : String)
  | authStatus (status : Int) (body : String)
  | refreshStatus (status : Int) (body : String)
  | decode (msg : String)
  | polling (err : String)
  | readFile (msg : String)
  | unmarshal (msg : String)
deriving DecidableEq, Repr

/-- A Go result pair `(value, err)` of which exactly one side is set, or, for `loadEnvFile`,
a value or a panic. -/
inductive Result (ε α : Type) where
  | error (e : ε)
  | ok (a : α)
deriving DecidableEq, Repr

/-- How a call that may loop ends: it returns, it is still looping when the listed answers of
the environment are used up, or it panics. -/
inductive Outcome (α : Type) where
  | returned (a : α)
  | running
  | panicked (msg : String)
deriving DecidableEq, Repr

/-- `InitiateDeviceCodeFlow`: `reqErr` is what `http.NewRequest` reports for the device-code
endpoint, `ex` what the POST yields. -/
def InitiateDeviceCodeFlow (reqErr : Option String) (ex : Exchange DeviceCodeResponse) :
    Result AuthError DeviceCodeResponse :=
  match reqErr with
  | some e => .error (.newRequest e)
  | none =>
    match ex with
    | .transportError e => .error (.transport e)
    | .response resp =>
      if resp.StatusCode ≠ 200 then .error (.authStatus resp.StatusCode resp.body)
      else
        match resp.decodeErr with
        | some e => .error (.decode e)
        | none => .ok resp.decoded

/-- The body of the `for` loop of `PollForToken`, run over the answers to successive poll
requests; `sent` counts the requests handed to `client.Do` so far. -/
def pollLoop (reqErr : Option String) :
    List (Exchange TokenResponse) → Nat → Outcome (Result AuthError TokenResponse) × Nat
  | [], sent =>
    match reqErr with
    | some e => (.returned (.error (.newRequest e)), sent)
    | none => (.running, sent)
  | o :: rest, sent =>
    match reqErr with
    | some e => (.returned (.error (.newRequest e)), sent)
    | none =>
      match o with
      | .transportError _ => pollLoop reqErr rest (sent + 1)
      | .response resp =>
        if resp.decoded.Error = "authorization_pending" then pollLoop reqErr rest (sent + 1)
        else if resp.decoded.Error ≠ "" then
          (.returned (.error (.polling resp.decoded.Error)), sent + 1)
        else if resp.decoded.AccessToken ≠ "" then (.returned (.ok resp.decoded), sent + 1)
        else pollLoop reqErr rest (sent + 1)

/-- `PollForToken`: `time.NewTicker` panics on a non-positive period; otherwise the loop runs.
The second component is the number of poll requests sent. -/
def PollForToken (reqErr : Option String) (interval : Int) (polls : List (Exchange TokenResponse)) :
    Outcome (Result AuthError TokenResponse) × Nat :=
  if secondsToDuration interval ≤ 0 then (.panicked "non-positive interval for NewTicker", 0)
  else pollLoop reqErr polls 0

/-! ## The token manager (`token_manager.go`) -/

/-- The struct `TokenManager` (the mutex is not a value and is left out). -/
structure TokenManager where
  tenantID : String
  clientID : String
  clientSecret : String
  tokenFile : String
  deviceCodeURL : String
  tokenURL : String
  scope : String
  accessToken : String
  refreshToken : String
  expiresAt : Int
deriving DecidableEq, Repr

/-- Steps recorded in the trace: a device-code flow is started; a polled token response is
stored, with the `refresh_token` it carries; `loadFromDisk` has read a record, with the
`refresh_token` it holds; a refresh grant is posted with the given refresh token; the answer
of a refresh grant is stored, with the `refresh_token` it carries; `Start` has emptied the
tokens; the token file is written; the refresh loop is launched. -/
inductive Event where
  | deviceFlow
  | authorized (refreshToken : String)
  | restored (refreshToken : String)
  | refreshGrant (refreshToken : String)
  | refreshed (refreshToken : String)
  | unloaded
  | writeFile (path : String) (refreshToken : String) (perm : Nat)
  | loopStarted
deriving DecidableEq, Repr

/-- A token manager together with the trace of its effects so far. -/
structure World where
  tm : TokenManager
  trace : List Event
deriving DecidableEq, Repr

/-- What `os.ReadFile` followed by `json.Unmarshal` into a `map[string]string` finds at the
token file path. -/
inductive DiskFile where
  | unreadable (msg : String)
  | malformed (msg : String)
  | record (fields : List (String × String))
deriving DecidableEq, Repr

/-- Indexing a Go `map[string]string`: the zero value for a missing key. -/
def mapIndex (fields : List (String × String)) (key : String) : String :=
  (fields.lookup key).getD ""

/-- `NewTokenManager`. -/
def NewTokenManager (tenantID clientID clientSecret tokenFile deviceCodeURL tokenURL
    scope : String) : TokenManager :=
  { tenantID := tenantID
    clientID := clientID
    clientSecret := clientSecret
    tokenFile := if tokenFile = "" then ".token.json" else tokenFile
    deviceCodeURL := deviceCodeURL
    tokenURL := tokenURL
    scope := scope
    accessToken := ""
    refreshToken := ""
    expiresAt := zeroTime }

/-- `GetToken`. -/
def GetToken (w : World) : String := w.tm.accessToken

/-- `saveToDisk`: the record holds the refresh token only and is written with mode 0600. The
error of `os.WriteFile` is the return value, which no caller reads. -/
def saveToDisk (w : World) : World :=
  { w with trace := w.trace ++ [.writeFile w.tm.tokenFile w.tm.refreshToken 0o600] }

/-- `loadFromDisk`, reading `file`. -/
def loadFromDisk (w : World) (file : DiskFile) : World × Option AuthError :=
  match file with
  | .unreadable e => (w, some (.readFile e))
  | .malformed e => (w, some (.unmarshal e))
  | .record fields =>
    ({ tm := { w.tm with refreshToken := mapIndex fields "refresh_token" }
       trace := w.trace ++ [.restored (mapIndex fields "refresh_token")] }, none)

/-- What the environment answers during one `runDeviceFlow`. -/
structure DeviceFlowEnv where
  deviceReqErr : Option String
  issuance : Exchange DeviceCodeResponse
  tokenReqErr : Option String
  polls : List (Exchange TokenResponse)
  now : Int
deriving DecidableEq, Repr

/-- `runDeviceFlow`. -/
def runDeviceFlow (w : World) (env : DeviceFlowEnv) : World × Outcome (Option AuthError) :=
  let w1 : World := { w with trace := w.trace ++ [.deviceFlow] }
  match InitiateDeviceCodeFlow env.deviceReqErr env.issuance with
  | .error e => (w1, .returned (some e))
  | .ok dcr =>
    match (PollForToken env.tokenReqErr dcr.Interval env.polls).1 with
    | .panicked m => (w1, .panicked m)
    | .running => (w1, .running)
    | .returned (.error e) => (w1, .returned (some e))
    | .returned (.ok tr) =>
      let w2 : World :=
        { tm := { w1.tm with
                    accessToken := tr.AccessToken
                    refreshToken := tr.RefreshToken
                    expiresAt := Time.Add env.now (secondsToDuration tr.ExpiresIn) }
          trace := w1.trace ++ [.authorized tr.RefreshToken] }
      (saveToDisk w2, .returned none)

/-- What the environment answers during one `doRefresh`. -/
structure RefreshEnv where
  reqErr : Option String
  exchange : Exchange TokenResponse
  now : Int
deriving DecidableEq, Repr

/-- `doRefresh`. -/
def doRefresh (w : World) (env : RefreshEnv) : World × Option AuthError :=
  match env.reqErr with
  | some e => (w, some (.newRequest e))
  | none =>
    let w1 : World := { w with trace := w.trace ++ [.refreshGrant w.tm.refreshToken] }
    match env.exchange with
    | .transportError e => (w1, some (.transport e))
    | .response resp =>
      if resp.StatusCode ≠ 200 then (w1, some (.refreshStatus resp.StatusCode resp.body))
      else
        match resp.decodeErr with
        | some e => (w1, some (.decode e))
        | none =>
          let tr := resp.decoded
          let w2 : World :=
            { tm := { w1.tm with
                        accessToken := tr.AccessToken
                        refreshToken := if tr.RefreshToken ≠ "" then tr.RefreshToken
                                        else w1.tm.refreshToken
                        expiresAt := Time.Add env.now (secondsToDuration tr.ExpiresIn) }
              trace := w1.trace ++ [.refreshed tr.RefreshToken] }
          (saveToDisk w2, none)

/-- What the environment answers during `Start`: the token file, the device-code flow of the
first authentication (used only if that flow is run), the eager refresh, and the device-code
flow of the re-authentication (used only if that flow is run). -/
structure StartEnv where
  file : DiskFile
  auth1 : DeviceFlowEnv
  refresh : RefreshEnv
  auth2 : DeviceFlowEnv
deriving DecidableEq, Repr

/-- The assignments `tm.refreshToken = ""; tm.accessToken = ""` of `Start`. -/
def unloadState (w : World) : World :=
  { tm := { w.tm with refreshToken := "", accessToken := "" }
    trace := w.trace ++ [.unloaded] }

/-- The statement `go tm.refreshLoop()` of `Start`. -/
def launchRefreshLoop (w : World) : World :=
  { w with trace := w.trace ++ [.loopStarted] }

/-- The first `if` of `Start`: restore, then authenticate unless a refresh token was restored. -/
def startRestore (w : World) (env : StartEnv) : World × Outcome (Option AuthError) :=
  let r := loadFromDisk w env.file
  if r.2.isSome ∨ r.1.tm.refreshToken = "" then runDeviceFlow r.1 env.auth1
  else (r.1, .returned none)

/-- `Start`. -/
def Start (w : World) (env : StartEnv) : World × Outcome (Option AuthError) :=
  match startRestore w env with
  | (w2, .returned none) =>
    match doRefresh w2 env.refresh with
    | (w3, some _) =>
      match runDeviceFlow (unloadState w3) env.auth2 with
      | (w5, .returned none) => (launchRefreshLoop w5, .returned none)
      | r => r
    | (w3, none) => (launchRefreshLoop w3, .returned none)
  | r => r

/-- The eager refresh as `Start` runs it: `doRefresh` on the state the first `if` left. -/
def eagerRefresh (w : World) (env : StartEnv) : World × Option AuthError :=
  doRefresh (startRestore w env).1 env.refresh

/-- The re-authentication as `Start` runs it after a failed eager refresh: `runDeviceFlow` on
the unloaded state. -/
def reauthenticate (w : World) (env : StartEnv) : World × Outcome (Option AuthError) :=
  runDeviceFlow (unloadState (eagerRefresh w env).1) env.auth2

/-- What one pass through the body of the `for` loop of `refreshLoop` did: the sleep before the
refresh (if any), the error of `doRefresh` (if any), and the sleep after it (if any). -/
structure Iteration where
  sleptBefore : Option Int
  refreshErr : Option AuthError
  backoff : Option Int
deriving DecidableEq, Repr

/-- One pass through the body of the `for` loop of `refreshLoop`; `now` is the clock reading
taken by `time.Until`. -/
def refreshLoopIteration (w : World) (now : Int) (env : RefreshEnv) : World × Iteration :=
  let expiresAt := w.tm.expiresAt
  let refreshTime := Time.Add expiresAt (-5 * Minute)
  let sleepDuration := timeUntil now refreshTime
  if sleepDuration ≤ 0 then
    match doRefresh w env with
    | (w1, some e) => (w1, { sleptBefore := none, refreshErr := some e, backoff := some (1 * Minute) })
    | (w1, none) => (w1, { sleptBefore := none, refreshErr := none, backoff := none })
  else
    match doRefresh w env with
    | (w1, some e) =>
      (w1, { sleptBefore := some sleepDuration, refreshErr := some e, backoff := some (1 * Minute) })
    | (w1, none) => (w1, { sleptBefore := some sleepDuration, refreshErr := none, backoff := none })

/-- The loop `refreshLoop`, run for as many passes as the environment lists answers for. -/
def refreshLoop (w : World) : List (Int × RefreshEnv) → World × List Iteration
  | [] => (w, [])
  | (now, env) :: rest =>
    let r := refreshLoopIteration w now env
    let t := refreshLoop r.1 rest
    (t.1, r.2 :: t.2)

/-! ## Configuration file (`main.go`) -/

/-- Text, as a list of characters. The two quote characters the code looks for are one byte
long, so for them byte offsets and character offsets agree. -/
abbrev Text := List Char

/-- The double quote character. -/
def dquote : Char := Char.ofNat 34

/-- The single quote character. -/
def squote : Char := Char.ofNat 39

/-- `unicode.IsSpace`. -/
def isSpace (c : Char) : Bool :=
  decide (c.toNat ∈ [9, 10, 11, 12, 13, 32, 0x85, 0xA0, 0x1680, 0x2028, 0x2029, 0x202F, 0x205F,
    0x3000]) || (decide (0x2000 ≤ c.toNat) && decide (c.toNat ≤ 0x200A))

/-- `strings.TrimSpace`. -/
def TrimSpace (s : Text) : Text :=
  ((s.dropWhile isSpace).reverse.dropWhile isSpace).reverse

/-- `strings.HasPrefix`. -/
def HasPrefix (s p : Text) : Bool := p.isPrefixOf s

/-- `strings.HasSuffix`. -/
def HasSuffix (s p : Text) : Bool := p.reverse.isPrefixOf s.reverse

/-- `strings.SplitN(s, sep, 2)` for a separator of one character. -/
def SplitN (s : Text) (sep : Char) : List Text :=
  match s.span (fun c => c != sep) with
  | (a, []) => [a]
  | (a, _ :: b) => [a, b]

/-- The slice expression `s[lo:hi]`; `none` is the run-time panic for bounds out of range. -/
def sliceText (s : Text) (lo hi : Int) : Option Text :=
  if 0 ≤ lo ∧ lo ≤ hi ∧ hi ≤ s.length then some ((s.drop lo.toNat).take (hi - lo).toNat)
  else none

/-- The process environment. -/
abbrev Environ := List (Text × Text)

/-- `os.LookupEnv`. -/
def LookupEnv (env : Environ) (key : Text) : Option Text := env.lookup key

/-- `os.Setenv`; an invalid key or value is an error, which `loadEnvFile` does not read. -/
def Setenv (env : Environ) (key val : Text) : Environ :=
  if key.length = 0 ∨ '=' ∈ key ∨ Char.ofNat 0 ∈ key ∨ Char.ofNat 0 ∈ val then env
  else (key, val) :: env.filter (fun kv => kv.1 != key)

/-- The body of the scanner loop of `loadEnvFile` for one line; `.error` is a panic. -/
def loadEnvLine (env : Environ) (text : Text) : Result String Environ :=
  let line := TrimSpace text
  if line.length = 0 ∨ HasPrefix line ['#'] then .ok env
  else
    match SplitN line '=' with
    | [p0, p1] =>
      let key := TrimSpace p0
      let val := TrimSpace p1
      if (HasPrefix val [dquote] && HasSuffix val [dquote])
          || (HasPrefix val [squote] && HasSuffix val [squote]) then
        match sliceText val 1 (val.length - 1) with
        | none => .error "slice bounds out of range"
        | some v => if (LookupEnv env key).isSome then .ok env else .ok (Setenv env key v)
      else if (LookupEnv env key).isSome then .ok env else .ok (Setenv env key val)
    | _ => .ok env

/-- `loadEnvFile` on a file that opens, given the lines the scanner yields. -/
def loadEnvFile (env : Environ) : List Text → Result String Environ
  | [] => .ok env
  | l :: rest =>
    match loadEnvLine env l with
    | .error e => .error e
    | .ok env1 => loadEnvFile env1 rest

/-! ## Reachable states of the token manager -/

/-- States reached from a freshly constructed manager by `loadFromDisk`, `runDeviceFlow`,
`doRefresh` and `Start`, against any environment. -/
inductive Reachable : World → Prop where
  | fresh (a b c d e f g : String) : Reachable { tm := NewTokenManager a b c d e f g, trace := [] }
  | load (w : World) (file : DiskFile) : Reachable w → Reachable (loadFromDisk w file).1
  | flow (w : World) (env : DeviceFlowEnv) : Reachable w → Reachable (runDeviceFlow w env).1
  | refresh (w : World) (env : RefreshEnv) : Reachable w → Reachable (doRefresh w env).1
  | start (w : World) (env : StartEnv) : Reachable w → Reachable (Start w env).1

/-- The refresh token an event hands to the manager, if it hands one: the `refresh_token` of
a stored poll response, that of a restored record, and that of a stored refresh answer when
it is not empty. -/
def Event.supplied : Event → Option String
  | .authorized rt => some rt
  | .restored rt => some rt
  | .refreshed rt => if rt = "" then none else some rt
  | _ => none

/-- The refresh token held after an event, given the one held before it. -/
def Event.stepToken (held : String) : Event → String
  | .authorized rt => rt
  | .restored rt => rt
  | .refreshed rt => if rt = "" then held else rt
  | .unloaded => ""
  | _ => held

/-- The refresh token a trace accounts for, starting from none: the one most recently
supplied, or the empty string if none was supplied or `Start` emptied it since. -/
def heldToken (trace : List Event) : String :=
  trace.foldl Event.stepToken ""

/-- The event is a write of the token file. -/
def Event.isWrite : Event → Bool
  | .writeFile _ _ _ => true
  | _ => false

/-- A manager holding a credential, used in examples. -/
def sampleManager : TokenManager :=
  { NewTokenManager "common" "client" "" "" "https://login/%s/devicecode" "https://login/%s/token"
      "EWS offline_access" with
    accessToken := "A0"
    refreshToken := "R0"
    expiresAt := 3600 * Second }

/-- A world around `sampleManager` with an empty trace. -/
def sampleWorld : World := { tm := sampleManager, trace := [] }

/-- A refresh answered with status 200 and a body carrying only an `error` field. -/
def errorBodyRefresh : RefreshEnv :=
  { reqErr := none
    exchange := .response
      { StatusCode := 200
        body := "error=invalid_grant"
        decoded := { AccessToken := "", RefreshToken := "", ExpiresIn := 0, Error := "invalid_grant" }
        decodeErr := none }
    now := 3301 * Second }

/-- A poll outcome that, in the words of the specification, does not decide the flow: a
transport failure, a response whose error is `authorization_pending`, or a response whose
error and access token are both empty. -/
def pollSkipped : Exchange TokenResponse → Bool
  | .transportError _ => true
  | .response resp =>
    resp.decoded.Error == "authorization_pending"
      || (resp.decoded.Error == "" && resp.decoded.AccessToken == "")

/-- A poll response whose error is `authorization_pending`. -/
def pollPending : Exchange TokenResponse → Bool
  | .transportError _ => false
  | .response resp => resp.decoded.Error == "authorization_pending"

/-- The poll response sent while the user has not signed in yet. -/
def pendingResponse : Exchange TokenResponse :=
  .response
    { StatusCode := 400
      body := "error=authorization_pending"
      decoded := { AccessToken := "", RefreshToken := "", ExpiresIn := 0,
                   Error := "authorization_pending" }
      decodeErr := none }

/-- The tokens `A1` and `R1`, valid for 3600 seconds. -/
def grantedToken : TokenResponse :=
  { AccessToken := "A1", RefreshToken := "R1", ExpiresIn := 3600, Error := "" }

/-- The poll response carrying `grantedToken`. -/
def grantedResponse : Exchange TokenResponse :=
  .response
    { StatusCode := 200
      body := "access_token=A1 refresh_token=R1 expires_in=3600"
      decoded := grantedToken
      decodeErr := none }

/-- The refresh token held is the one the trace accounts for. -/
def TokenSupplied (w : World) : Prop :=
  w.tm.refreshToken = heldToken w.trace

/-- A device-code issuance answered with device code `D1`, polling interval 5 and lifetime 600. -/
def sampleIssuance : Exchange DeviceCodeResponse :=
  .response
    { StatusCode := 200
      body := "device_code=D1 interval=5 expires_in=600"
      decoded := { DeviceCode := "D1", UserCode := "U1", VerificationURI := "https://login/device",
                   ExpiresIn := 600, Interval := 5, Message := "enter U1" }
      decodeErr := none }

/-- A device-code flow whose first poll is answered with an access token and no refresh
token. -/
def noRefreshTokenFlow : DeviceFlowEnv :=
  { deviceReqErr := none
    issuance := sampleIssuance
    tokenReqErr := none
    polls := [.response
      { StatusCode := 200
        body := "access_token=A1 expires_in=3600"
        decoded := { AccessToken := "A1", RefreshToken := "", ExpiresIn := 3600, Error := "" }
        decodeErr := none }]
    now := 1000 * Second }

/-- A device-code flow with three pending polls followed by the grant of `A1` and `R1`. -/
def grantedFlow : DeviceFlowEnv :=
  { deviceReqErr := none
    issuance := sampleIssuance
    tokenReqErr := none
    polls := [pendingResponse, pendingResponse, pendingResponse, grantedResponse]
    now := 1000 * Second }

/-- The manager `NewTokenManager` returns, with an empty trace. -/
def newWorld (tenantID clientID clientSecret tokenFile deviceCodeURL tokenURL scope : String) :
    World :=
  { tm := NewTokenManager tenantID clientID clientSecret tokenFile deviceCodeURL tokenURL scope
    trace := [] }

/-- A freshly constructed manager with an empty trace. -/
def freshWorld : World :=
  { tm := NewTokenManager "common" "client" "" "" "https://login/%s/devicecode"
      "https://login/%s/token" "EWS offline_access"
    trace := [] }

/-- A token response granting `A2` for 9223372037 seconds, the least positive number of
seconds whose nanosecond count exceeds `2^63 - 1`. -/
def longLivedToken : TokenResponse :=
  { AccessToken := "A2", RefreshToken := "R2", ExpiresIn := 9223372037, Error := "" }

/-- A refresh answered with `longLivedToken` at the instant of 1000 seconds. -/
def longLivedRefresh : RefreshEnv :=
  { reqErr := none
    exchange := .response
      { StatusCode := 200, body := "expires_in=9223372037", decoded := longLivedToken,
        decodeErr := none }
    now := 1000 * Second }

/-- A device-code flow whose first poll is answered with `longLivedToken`. -/
def longLivedFlow : DeviceFlowEnv :=
  { deviceReqErr := none
    issuance := sampleIssuance
    tokenReqErr := none
    polls := [.response
      { StatusCode := 200, body := "expires_in=9223372037", decoded := longLivedToken,
        decodeErr := none }]
    now := 1000 * Second }

/-- A refresh answered with status 400 and the error `invalid_grant`. -/
def revokedRefresh : RefreshEnv :=
  { reqErr := none
    exchange := .response
      { StatusCode := 400
        body := "error=invalid_grant"
        decoded := { AccessToken := "", RefreshToken := "", ExpiresIn := 0, Error := "invalid_grant" }
        decodeErr := none }
    now := 10 * Second }

/-- A device-code flow whose issuance is answered with status 500. -/
def rejectedFlow : DeviceFlowEnv :=
  { deviceReqErr := none
    issuance := .response
      { StatusCode := 500
        body := "unavailable"
        decoded := { DeviceCode := "", UserCode := "", VerificationURI := "", ExpiresIn := 0,
                     Interval := 0, Message := "" }
        decodeErr := none }
    tokenReqErr := none
    polls := []
    now := 20 * Second }

/-- A start-up that restores the refresh token `R0`, has its eager refresh refused with
`invalid_grant`, and whose re-authentication is refused by the provider. -/
def revokedStart : StartEnv :=
  { file := .record [("refresh_token", "R0")]
    auth1 := grantedFlow
    refresh := revokedRefresh
    auth2 := rejectedFlow }

/-- The same start-up with a re-authentication that is granted `A1` and `R1`. -/
def reauthorizedStart : StartEnv :=
  { file := .record [("refresh_token", "R0")]
    auth1 := rejectedFlow
    refresh := revokedRefresh
    auth2 := grantedFlow }

/-! ## Theorems -/

/-- C1, evaluated where it fails: a refresh answered with status 200 and a body whose `error`
field is `invalid_grant` makes `doRefresh` return no error; it stores an empty access token and
the expiry `now`, writes the token file, and the loop pass that ran it takes no backoff; the
next pass refreshes at once, again with no backoff. -/
theorem doRefresh_error_field_accepted :
    (doRefresh sampleWorld errorBodyRefresh).2 = none
    ∧ (doRefresh sampleWorld errorBodyRefresh).1.tm.accessToken = ""
    ∧ (doRefresh sampleWorld errorBodyRefresh).1.tm.expiresAt = 3301 * Second
    ∧ Event.writeFile ".token.json" "R0" 0o600 ∈ (doRefresh sampleWorld errorBodyRefresh).1.trace
    ∧ (refreshLoopIteration sampleWorld 0 errorBodyRefresh).2
        = { sleptBefore := some (55 * Minute), refreshErr := none, backoff := none }
    ∧ (refreshLoop sampleWorld
          [(0, errorBodyRefresh), (3302 * Second, errorBodyRefresh)]).2
        = [{ sleptBefore := some (55 * Minute), refreshErr := none, backoff := none },
           { sleptBefore := none, refreshErr := none, backoff := none }] := by
  refine ⟨by decide, by decide, by decide, by decide, by decide, by decide⟩

/-- A refresh answered with status 200 and a decodable body returns no error, whatever the
fields of the body are. -/
theorem doRefresh_ok_of_200 (w : World) (body : String) (tr : TokenResponse) (now : Int) :
    (doRefresh w { reqErr := none
                   exchange := .response
                     { StatusCode := 200, body := body, decoded := tr, decodeErr := none }
                   now := now }).2 = none := by
  simp [doRefresh]

/-- On every error path of `doRefresh` the manager is the one it started from and the trace
grew by at most the posting of the refresh grant. -/
theorem doRefresh_error_cases (w : World) (env : RefreshEnv)
    (h : (doRefresh w env).2 ≠ none) :
    (doRefresh w env).1.tm = w.tm
    ∧ ((doRefresh w env).1.trace = w.trace
        ∨ (doRefresh w env).1.trace = w.trace ++ [.refreshGrant w.tm.refreshToken]) := by
  unfold doRefresh at h ⊢
  cases hr : env.reqErr with
  | some e => simp
  | none =>
    cases hx : env.exchange with
    | transportError e => simp
    | response resp =>
      by_cases hs : resp.StatusCode = 200
      · cases hd : resp.decodeErr with
        | some e => simp [hs, hd]
        | none => simp [hr, hx, hs, hd] at h
      · simp [hs]

/-- The manager `doRefresh` leaves after a refresh answered with status 200 and a decodable
body. -/
theorem doRefresh_store_200 (w : World) (body : String) (tr : TokenResponse) (now : Int) :
    (doRefresh w { reqErr := none
                   exchange := .response
                     { StatusCode := 200, body := body, decoded := tr, decodeErr := none }
                   now := now }).1.tm
      = { w.tm with
            accessToken := tr.AccessToken
            refreshToken := if tr.RefreshToken = "" then w.tm.refreshToken else tr.RefreshToken
            expiresAt := Time.Add now (secondsToDuration tr.ExpiresIn) } := by
  by_cases h : tr.RefreshToken = "" <;> simp [doRefresh, saveToDisk, h]

/-- The slice `val[1 : len(val)-1]` is within bounds exactly for values of at least two
characters. -/
theorem sliceText_strip_isSome (val : Text) :
    (sliceText val 1 (val.length - 1)).isSome = true ↔ 2 ≤ val.length := by
  unfold sliceText
  by_cases h : (0 : Int) ≤ 1 ∧ (1 : Int) ≤ (val.length : Int) - 1
      ∧ (val.length : Int) - 1 ≤ (val.length : Int)
  · rw [if_pos h]
    simp only [Option.isSome_some, true_iff]
    omega
  · rw [if_neg h]
    simp only [Option.isSome_none, Bool.false_eq_true, false_iff]
    omega

/-- C2: after a refresh answered with status 200 and a decodable body, `doRefresh` returns no
error; the stored refresh token is the one of the response when that field is non-empty and
the one held before when the field is empty (an absent field decodes to the empty string);
the access token and the expiry are replaced in both cases. -/
theorem doRefresh_success_store (w : World) (body : String) (tr : TokenResponse)
    (now : Int) :
    (doRefresh w { reqErr := none
                   exchange := .response
                     { StatusCode := 200, body := body, decoded := tr, decodeErr := none }
                   now := now }).2 = none
    ∧ (doRefresh w { reqErr := none
                     exchange := .response
                       { StatusCode := 200, body := body, decoded := tr, decodeErr := none }
                     now := now }).1.tm
      = { w.tm with
            accessToken := tr.AccessToken
            refreshToken := if tr.RefreshToken = "" then w.tm.refreshToken else tr.RefreshToken
            expiresAt := Time.Add now (secondsToDuration tr.ExpiresIn) } :=
  ⟨doRefresh_ok_of_200 w body tr now, doRefresh_store_200 w body tr now⟩

/-- C3: whenever `doRefresh` returns an error, the manager (access token, refresh token and
expiry included) is unchanged and the trace holds no write of the token file that it did not
hold before; a transport failure, a status other than 200 and an undecodable body are such
errors. -/
theorem doRefresh_error_preserves (w : World) (env : RefreshEnv)
    (h : (doRefresh w env).2 ≠ none) :
    (doRefresh w env).1.tm.accessToken = w.tm.accessToken
    ∧ (doRefresh w env).1.tm.refreshToken = w.tm.refreshToken
    ∧ (doRefresh w env).1.tm.expiresAt = w.tm.expiresAt
    ∧ (doRefresh w env).1.tm = w.tm
    ∧ (doRefresh w env).1.trace.filter Event.isWrite = w.trace.filter Event.isWrite
    ∧ (∀ (m : String) (now : Int),
        (doRefresh w { reqErr := none, exchange := .transportError m, now := now }).2 ≠ none)
    ∧ (∀ (resp : HTTPResponse TokenResponse) (now : Int), resp.StatusCode ≠ 200 →
        (doRefresh w { reqErr := none, exchange := .response resp, now := now }).2 ≠ none)
    ∧ (∀ (resp : HTTPResponse TokenResponse) (now : Int), resp.decodeErr ≠ none →
        (doRefresh w { reqErr := none, exchange := .response resp, now := now }).2 ≠ none) := by
  obtain ⟨htm, htr⟩ := doRefresh_error_cases w env h
  refine ⟨by rw [htm], by rw [htm], by rw [htm], htm, ?_, ?_, ?_, ?_⟩
  · rcases htr with htr | htr
    · rw [htr]
    · rw [htr]; simp [List.filter_append, Event.isWrite]
  · intro m now; simp [doRefresh]
  · intro resp now hs; simp [doRefresh, hs]
  · intro resp now hd
    cases hd2 : resp.decodeErr with
    | none => exact absurd hd2 hd
    | some e => by_cases hs : resp.StatusCode = 200 <;> simp [doRefresh, hs, hd2]

/-- Witness for C3: a refresh that times out at the transport level. -/
theorem doRefresh_error_preserves_witness :
    (doRefresh sampleWorld
        { reqErr := none, exchange := .transportError "timeout", now := 0 }).2 ≠ none
    ∧ (doRefresh sampleWorld
        { reqErr := none, exchange := .transportError "timeout", now := 0 }).1.tm = sampleWorld.tm :=
  ⟨by decide,
   (doRefresh_error_preserves sampleWorld
    { reqErr := none, exchange := .transportError "timeout", now := 0 } (by decide)).2.2.2.1⟩

/-- C9: `loadFromDisk` leaves every field but the refresh token as it was; when the record is
read and parsed it returns no error and the refresh token is the record's `refresh_token`
field; on a read or parse error the manager and the trace are unchanged; and on a freshly
constructed manager `GetToken` is empty after the restore. -/
theorem loadFromDisk_frame (w : World) (file : DiskFile) :
    (loadFromDisk w file).1.tm.accessToken = w.tm.accessToken
    ∧ (loadFromDisk w file).1.tm.expiresAt = w.tm.expiresAt
    ∧ (loadFromDisk w file).1.tm
        = { w.tm with refreshToken := (loadFromDisk w file).1.tm.refreshToken }
    ∧ (∀ fields, file = .record fields →
        (loadFromDisk w file).2 = none
        ∧ (loadFromDisk w file).1.tm.refreshToken = mapIndex fields "refresh_token")
    ∧ ((loadFromDisk w file).2 ≠ none → (loadFromDisk w file).1 = w)
    ∧ (∀ a b c d e f g : String,
        GetToken (loadFromDisk { tm := NewTokenManager a b c d e f g, trace := [] } file).1 = "") := by
  cases file <;> simp [loadFromDisk, GetToken, NewTokenManager]

/-- C10, evaluated where it fails: for the line made of `KEY=` and one double quote, and
for the line made of `KEY=` and one single quote, the trimmed value has length 1, both
`HasPrefix` and `HasSuffix` hold, and the slice `val[1 : len(val)-1]` has bounds 1 and 0: the
line panics, and so does a file containing it. -/
theorem loadEnvLine_single_quote_panics :
    loadEnvLine [] ['K', 'E', 'Y', '=', dquote] = .error "slice bounds out of range"
    ∧ loadEnvLine [] ['K', 'E', 'Y', '=', squote] = .error "slice bounds out of range"
    ∧ sliceText [dquote] 1 (([dquote] : Text).length - 1) = none
    ∧ loadEnvFile [] [['A', '=', '1'], ['K', 'E', 'Y', '=', dquote], ['B', '=', '2']]
        = .error "slice bounds out of range" := by
  refine ⟨by decide, by decide, by decide, by decide⟩

/-- Outcomes that do not decide the flow are consumed one request each. -/
theorem pollLoop_skip (pre rest : List (Exchange TokenResponse)) (sent : Nat)
    (hpre : ∀ o ∈ pre, pollSkipped o = true) :
    pollLoop none (pre ++ rest) sent = pollLoop none rest (sent + pre.length) := by
  induction pre generalizing sent with
  | nil => simp
  | cons o pre ih =>
    have ho : pollSkipped o = true := hpre o (List.mem_cons_self _ _)
    have ih2 := ih (sent + 1) (fun x hx => hpre x (List.mem_cons_of_mem _ hx))
    have hlen : sent + (o :: pre).length = sent + 1 + pre.length := by
      simp only [List.length_cons]; omega
    rw [hlen, ← ih2]
    cases o with
    | transportError m => simp [pollLoop]
    | response resp =>
      simp only [pollSkipped, Bool.or_eq_true, Bool.and_eq_true, beq_iff_eq] at ho
      rcases ho with ho | ⟨he, ha⟩
      · simp [pollLoop, ho]
      · simp [pollLoop, he, ha]

/-- A pending response does not decide the flow. -/
theorem pollSkipped_of_pending (o : Exchange TokenResponse) (h : pollPending o = true) :
    pollSkipped o = true := by
  cases o with
  | transportError m => simp [pollPending] at h
  | response resp =>
    simp only [pollPending, beq_iff_eq] at h
    simp [pollSkipped, h]

/-- C4: with a ticker that can be built and a request that can be built, the result of
`PollForToken` is decided by the first outcome that is not a transport failure, not an
`authorization_pending` response and not a response with empty error and empty access token:
a non-empty error there fails the call with that error, otherwise the call succeeds with that
response, and the number of requests sent is the position of that outcome. A run of pending
responses returns nothing, hence no error, and three pending responses followed by the grant
of `A1` return `A1` after 4 requests. -/
theorem PollForToken_decided (interval : Int) (pre rest : List (Exchange TokenResponse))
    (resp : HTTPResponse TokenResponse)
    (hticker : 0 < secondsToDuration interval)
    (hpre : ∀ o ∈ pre, pollSkipped o = true)
    (hdec : pollSkipped (.response resp) = false) :
    PollForToken none interval (pre ++ .response resp :: rest)
      = (if resp.decoded.Error ≠ "" then .returned (.error (.polling resp.decoded.Error))
         else .returned (.ok resp.decoded), pre.length + 1)
    ∧ (resp.decoded.Error = "" → resp.decoded.AccessToken ≠ "")
    ∧ (∀ run : List (Exchange TokenResponse), (∀ o ∈ run, pollPending o = true) →
        PollForToken none interval run = (.running, run.length))
    ∧ PollForToken none 5 [pendingResponse, pendingResponse, pendingResponse, grantedResponse]
        = (.returned (.ok { AccessToken := "A1", RefreshToken := "R1", ExpiresIn := 3600,
                            Error := "" }), 4) := by
  have hnt : ¬ secondsToDuration interval ≤ 0 := not_le.mpr hticker
  simp only [pollSkipped, Bool.or_eq_false_iff, Bool.and_eq_false_iff, beq_eq_false_iff_ne,
    ne_eq] at hdec
  obtain ⟨hnp, hor⟩ := hdec
  refine ⟨?_, ?_, ?_, by decide⟩
  · unfold PollForToken
    rw [if_neg hnt, pollLoop_skip pre _ 0 hpre]
    by_cases he : resp.decoded.Error = ""
    · have ha : resp.decoded.AccessToken ≠ "" := by
        rcases hor with h | h
        · exact absurd he h
        · exact h
      simp [pollLoop, he, ha]
    · simp [pollLoop, hnp, he]
  · intro he
    rcases hor with h | h
    · exact absurd he h
    · exact h
  · intro run hrun
    unfold PollForToken
    rw [if_neg hnt]
    have h := pollLoop_skip run [] 0 (fun o ho => pollSkipped_of_pending o (hrun o ho))
    simpa [pollLoop] using h

/-- Witness for C4: one pending response, then a denial, polled every 5 seconds. -/
theorem PollForToken_decided_witness :
    0 < secondsToDuration 5
    ∧ PollForToken none 5
        ([pendingResponse] ++ .response
          { StatusCode := 400, body := "error=access_denied",
            decoded := { AccessToken := "", RefreshToken := "", ExpiresIn := 0,
                         Error := "access_denied" },
            decodeErr := none } :: [grantedResponse])
      = (.returned (.error (.polling "access_denied")), 2) :=
  ⟨by decide,
   (PollForToken_decided 5 [pendingResponse] [grantedResponse]
      { StatusCode := 400, body := "error=access_denied",
        decoded := { AccessToken := "", RefreshToken := "", ExpiresIn := 0,
                     Error := "access_denied" },
        decodeErr := none }
      (by decide) (by decide) (by decide)).1⟩

/-- The result of `wrap64` is a 64-bit signed value. -/
theorem wrap64_range (x : Int) : minDuration ≤ wrap64 x ∧ wrap64 x ≤ maxDuration := by
  unfold wrap64 minDuration maxDuration
  constructor <;> omega

/-- On 64-bit signed values `wrap64` is the identity. -/
theorem wrap64_of_range (x : Int) (hlo : minDuration ≤ x) (hhi : x ≤ maxDuration) :
    wrap64 x = x := by
  unfold wrap64
  unfold minDuration at hlo
  unfold maxDuration at hhi
  omega

/-- An expiry stored at the instant `t0` lies less than the largest duration after any later
instant, so the sleep computed from it is never clamped from above. -/
theorem stored_expiry_fits (t0 now n : Int) (h : t0 ≤ now) :
    Time.Add t0 (secondsToDuration n) - 5 * Minute - now ≤ maxDuration := by
  have hr := (wrap64_range (n * Second)).2
  unfold Time.Add secondsToDuration
  have hm : Minute = 60000000000 := by decide
  omega

/-- The pass of `refreshLoop` runs `doRefresh` once, on the state it found, on both branches. -/
theorem refreshLoopIteration_refresh (w : World) (now : Int) (env : RefreshEnv) :
    (refreshLoopIteration w now env).1 = (doRefresh w env).1
    ∧ (refreshLoopIteration w now env).2.refreshErr = (doRefresh w env).2 := by
  unfold refreshLoopIteration
  by_cases h : timeUntil now (Time.Add w.tm.expiresAt (-5 * Minute)) ≤ 0
  · simp only [h, if_true]
    rcases hd : doRefresh w env with ⟨w1, _ | e⟩ <;> simp
  · simp only [h, if_false]
    rcases hd : doRefresh w env with ⟨w1, _ | e⟩ <;> simp

/-- The sleep a pass of `refreshLoop` takes before its refresh. -/
theorem refreshLoopIteration_sleptBefore (w : World) (now : Int) (env : RefreshEnv) :
    (refreshLoopIteration w now env).2.sleptBefore
      = if timeUntil now (Time.Add w.tm.expiresAt (-5 * Minute)) ≤ 0 then none
        else some (timeUntil now (Time.Add w.tm.expiresAt (-5 * Minute))) := by
  unfold refreshLoopIteration
  by_cases h : timeUntil now (Time.Add w.tm.expiresAt (-5 * Minute)) ≤ 0
  · simp only [h, if_true]
    rcases hd : doRefresh w env with ⟨w1, _ | e⟩ <;> simp
  · simp only [h, if_false]
    rcases hd : doRefresh w env with ⟨w1, _ | e⟩ <;> simp

/-- C5: for an instant `now` and a stored expiry whose distance `expiresAt - 5 minutes - now`
does not exceed the largest `time.Duration`, one pass of `refreshLoop` refreshes with no sleep
exactly when `expiresAt - 5 minutes <= now`, and otherwise sleeps exactly
`expiresAt - 5 minutes - now`, a strictly positive duration, before refreshing; the refresh runs
on both branches; with `expiresAt = now + 2 minutes` there is no sleep; no sleep is negative. -/
theorem refreshLoop_schedule (w : World) (now : Int) (env : RefreshEnv)
    (hfit : w.tm.expiresAt - 5 * Minute - now ≤ maxDuration) :
    ((refreshLoopIteration w now env).2.sleptBefore = none ↔ w.tm.expiresAt - 5 * Minute ≤ now)
    ∧ (now < w.tm.expiresAt - 5 * Minute →
        (refreshLoopIteration w now env).2.sleptBefore
            = some (w.tm.expiresAt - 5 * Minute - now)
          ∧ 0 < w.tm.expiresAt - 5 * Minute - now)
    ∧ (refreshLoopIteration w now env).1 = (doRefresh w env).1
    ∧ (w.tm.expiresAt = now + 2 * Minute →
        (refreshLoopIteration w now env).2.sleptBefore = none)
    ∧ (∀ d, (refreshLoopIteration w now env).2.sleptBefore = some d → 0 < d) := by
  have hs := refreshLoopIteration_sleptBefore w now env
  have hmin : minDuration < 0 := by decide
  have hmax : 0 < maxDuration := by decide
  have hm : Minute = 60000000000 := by decide
  have key : timeUntil now (Time.Add w.tm.expiresAt (-5 * Minute))
      = if w.tm.expiresAt - 5 * Minute - now < minDuration then minDuration
        else w.tm.expiresAt - 5 * Minute - now := by
    unfold timeUntil Time.Sub Time.Add
    have e : w.tm.expiresAt + -5 * Minute - now = w.tm.expiresAt - 5 * Minute - now := by ring
    rw [e]
    by_cases h1 : w.tm.expiresAt - 5 * Minute - now < minDuration
    · simp [h1]
    · simp [h1, not_lt.mpr hfit]
  rw [key] at hs
  refine ⟨?_, ?_, (refreshLoopIteration_refresh w now env).1, ?_, ?_⟩
  · rw [hs]
    by_cases h1 : w.tm.expiresAt - 5 * Minute - now < minDuration
    · simp only [h1, if_true]
      constructor
      · intro _; omega
      · intro _; simp [le_of_lt hmin]
    · simp only [h1, if_false]
      by_cases h2 : w.tm.expiresAt - 5 * Minute - now ≤ 0
      · simp only [h2, if_true, true_iff]; omega
      · simp only [h2, if_false]
        constructor
        · intro hc; cases hc
        · intro hc; omega
  · intro hlt
    have h1 : ¬ w.tm.expiresAt - 5 * Minute - now < minDuration := by omega
    have h2 : ¬ w.tm.expiresAt - 5 * Minute - now ≤ 0 := by omega
    rw [hs]
    simp only [h1, h2, if_false]
    exact ⟨trivial, by omega⟩
  · intro he
    rw [hs, he]
    have h1 : ¬ now + 2 * Minute - 5 * Minute - now < minDuration := by
      rw [hm]; unfold minDuration; omega
    have h2 : now + 2 * Minute - 5 * Minute - now ≤ 0 := by rw [hm]; omega
    simp only [h1, h2, if_false, if_true]
  · intro d hd
    rw [hs] at hd
    by_cases h1 : w.tm.expiresAt - 5 * Minute - now < minDuration
    · simp only [h1, if_true] at hd
      simp [le_of_lt hmin] at hd
    · simp only [h1, if_false] at hd
      by_cases h2 : w.tm.expiresAt - 5 * Minute - now ≤ 0
      · simp [h2] at hd
      · simp only [h2, if_false, Option.some.injEq] at hd
        omega

/-- Witness for C5: an access token expiring one hour after `now` makes the loop sleep 55
minutes. -/
theorem refreshLoop_schedule_witness :
    sampleWorld.tm.expiresAt - 5 * Minute - 0 ≤ maxDuration
    ∧ (refreshLoopIteration sampleWorld 0 errorBodyRefresh).2.sleptBefore = some (55 * Minute) :=
  ⟨by decide,
   ((refreshLoop_schedule sampleWorld 0 errorBodyRefresh (by decide)).2.1 (by decide)).1⟩

/-- The two ways `runDeviceFlow` ends: it returns no error, having stored the polled token and
written the token file, or it leaves the manager as it was. -/
theorem runDeviceFlow_cases (w : World) (env : DeviceFlowEnv) :
    ((runDeviceFlow w env).2 = .returned none
      ∧ ∃ dcr tr, InitiateDeviceCodeFlow env.deviceReqErr env.issuance = .ok dcr
          ∧ (PollForToken env.tokenReqErr dcr.Interval env.polls).1 = .returned (.ok tr)
          ∧ (runDeviceFlow w env).1
              = { tm := { w.tm with
                            accessToken := tr.AccessToken
                            refreshToken := tr.RefreshToken
                            expiresAt := Time.Add env.now (secondsToDuration tr.ExpiresIn) }
                  trace := w.trace ++ [.deviceFlow, .authorized tr.RefreshToken,
                    .writeFile w.tm.tokenFile tr.RefreshToken 0o600] })
    ∨ ((runDeviceFlow w env).2 ≠ .returned none
      ∧ (runDeviceFlow w env).1 = { tm := w.tm, trace := w.trace ++ [.deviceFlow] }) := by
  unfold runDeviceFlow
  cases hi : InitiateDeviceCodeFlow env.deviceReqErr env.issuance with
  | error e => right; simp
  | ok dcr =>
    rcases hp : (PollForToken env.tokenReqErr dcr.Interval env.polls).1 with r | _ | m
    · cases r with
      | error e => right; simp [hp]
      | ok tr =>
        left
        refine ⟨by simp [hp], dcr, tr, rfl, hp, ?_⟩
        simp [hp, saveToDisk]
    · right; simp [hp]
    · right; simp [hp]

/-- C8, refuted: for `expires_in = 9223372037` the product with `time.Second` wraps around, and
the expiry stored by `doRefresh` and by `runDeviceFlow` is `2^64` nanoseconds before
`now + 9223372037 seconds`, which is earlier than `now`. -/
theorem stored_expiry_overflow :
    (doRefresh sampleWorld longLivedRefresh).2 = none
    ∧ (doRefresh sampleWorld longLivedRefresh).1.tm.expiresAt
        ≠ longLivedRefresh.now + 9223372037 * Second
    ∧ (doRefresh sampleWorld longLivedRefresh).1.tm.expiresAt
        = longLivedRefresh.now + 9223372037 * Second - 18446744073709551616
    ∧ (doRefresh sampleWorld longLivedRefresh).1.tm.expiresAt < longLivedRefresh.now
    ∧ (runDeviceFlow freshWorld longLivedFlow).2 = .returned none
    ∧ (runDeviceFlow freshWorld longLivedFlow).1.tm.expiresAt
        ≠ longLivedFlow.now + 9223372037 * Second
    ∧ (runDeviceFlow freshWorld longLivedFlow).1.tm.expiresAt < longLivedFlow.now := by
  refine ⟨by decide, by decide, by decide, by decide, by decide, by decide, by decide⟩

/-- C8, amended: for a token response whose `expires_in` lies between -9223372036 and
9223372036, the numbers of seconds whose nanosecond count fits 64 bits, the expiry stored by
`doRefresh` and by `runDeviceFlow` is the instant of the update plus `expires_in` seconds. -/
theorem stored_expiry_within_range (w : World) (tr : TokenResponse)
    (hlo : -9223372036 ≤ tr.ExpiresIn) (hhi : tr.ExpiresIn ≤ 9223372036) :
    (∀ (body : String) (now : Int),
      (doRefresh w { reqErr := none
                     exchange := .response
                       { StatusCode := 200, body := body, decoded := tr, decodeErr := none }
                     now := now }).1.tm.expiresAt = now + tr.ExpiresIn * Second)
    ∧ (∀ (env : DeviceFlowEnv) (dcr : DeviceCodeResponse),
        InitiateDeviceCodeFlow env.deviceReqErr env.issuance = .ok dcr →
        (PollForToken env.tokenReqErr dcr.Interval env.polls).1 = .returned (.ok tr) →
        (runDeviceFlow w env).2 = .returned none
        ∧ (runDeviceFlow w env).1.tm.expiresAt = env.now + tr.ExpiresIn * Second) := by
  have hs : Second = 1000000000 := by decide
  have hw : secondsToDuration tr.ExpiresIn = tr.ExpiresIn * Second := by
    unfold secondsToDuration
    apply wrap64_of_range
    · unfold minDuration; rw [hs]; omega
    · unfold maxDuration; rw [hs]; omega
  constructor
  · intro body now
    rw [doRefresh_store_200 w body tr now]
    simp [Time.Add, hw]
  · intro env dcr hi hp
    rcases runDeviceFlow_cases w env with ⟨hret, dcr2, tr2, hi2, hp2, hst⟩ | ⟨hne, _⟩
    · rw [hi] at hi2
      cases hi2
      rw [hp] at hp2
      cases hp2
      refine ⟨hret, ?_⟩
      rw [hst]
      simp [Time.Add, hw]
    · exfalso
      apply hne
      simp [runDeviceFlow, hi, hp]

/-- Witness for C8: a token valid for one hour, stored by a refresh at the instant 0. -/
theorem stored_expiry_within_range_witness :
    -9223372036 ≤ grantedToken.ExpiresIn ∧ grantedToken.ExpiresIn ≤ 9223372036
    ∧ (doRefresh sampleWorld
        { reqErr := none
          exchange := .response
            { StatusCode := 200, body := "", decoded := grantedToken, decodeErr := none }
          now := 0 }).1.tm.expiresAt = 0 + grantedToken.ExpiresIn * Second :=
  ⟨by decide, by decide,
   (stored_expiry_within_range sampleWorld grantedToken (by decide) (by decide)).1 "" 0⟩

/-- When `doRefresh` returns no error, it stored a decoded answer: the state it leaves. -/
theorem doRefresh_ok_cases (w : World) (env : RefreshEnv) (h : (doRefresh w env).2 = none) :
    ∃ tr : TokenResponse, (doRefresh w env).1
      = { tm := { w.tm with
                    accessToken := tr.AccessToken
                    refreshToken := if tr.RefreshToken = "" then w.tm.refreshToken
                                    else tr.RefreshToken
                    expiresAt := Time.Add env.now (secondsToDuration tr.ExpiresIn) }
          trace := w.trace ++ [.refreshGrant w.tm.refreshToken, .refreshed tr.RefreshToken,
            .writeFile w.tm.tokenFile
              (if tr.RefreshToken = "" then w.tm.refreshToken else tr.RefreshToken) 0o600] } := by
  unfold doRefresh at h ⊢
  cases hr : env.reqErr with
  | some e => simp [hr] at h
  | none =>
    cases hx : env.exchange with
    | transportError e => simp [hr, hx] at h
    | response resp =>
      by_cases hs : resp.StatusCode = 200
      · cases hd : resp.decodeErr with
        | some e => simp [hr, hx, hs, hd] at h
        | none =>
          refine ⟨resp.decoded, ?_⟩
          by_cases ht : resp.decoded.RefreshToken = "" <;> simp [hs, hd, saveToDisk, ht]
      · simp [hr, hx, hs] at h

/-- The token a trace accounts for, when events are appended. -/
theorem heldToken_append (t es : List Event) :
    heldToken (t ++ es) = es.foldl Event.stepToken (heldToken t) := by
  unfold heldToken
  rw [List.foldl_append]

/-- Running the events of a trace from a held token leaves that token, the empty string, or
a token supplied by one of the events. -/
theorem foldl_stepToken_cases (t : List Event) (init : String) :
    t.foldl Event.stepToken init = init ∨ t.foldl Event.stepToken init = ""
      ∨ ∃ e ∈ t, e.supplied = some (t.foldl Event.stepToken init) := by
  induction t generalizing init with
  | nil => left; rfl
  | cons e t ih =>
    rw [List.foldl_cons]
    rcases ih (Event.stepToken init e) with h | h | ⟨e1, he1, hs⟩
    · rw [h]
      cases e with
      | deviceFlow => left; rfl
      | authorized rt =>
        right; right
        exact ⟨.authorized rt, List.mem_cons_self _ _, rfl⟩
      | restored rt =>
        right; right
        exact ⟨.restored rt, List.mem_cons_self _ _, rfl⟩
      | refreshGrant rt => left; rfl
      | refreshed rt =>
        by_cases hrt : rt = ""
        · left; simp [Event.stepToken, hrt]
        · right; right
          exact ⟨.refreshed rt, List.mem_cons_self _ _, by simp [Event.stepToken, Event.supplied, hrt]⟩
      | unloaded => right; left; rfl
      | writeFile a b c => left; rfl
      | loopStarted => left; rfl
    · right; left; exact h
    · right; right
      exact ⟨e1, List.mem_cons_of_mem _ he1, hs⟩

/-- A non-empty token that a trace accounts for was supplied by one of its events. -/
theorem heldToken_supplied (t : List Event) (h : heldToken t ≠ "") :
    ∃ e ∈ t, e.supplied = some (heldToken t) := by
  rcases foldl_stepToken_cases t "" with h1 | h1 | h1
  · exact absurd h1 h
  · exact absurd h1 h
  · exact h1

/-- The invariant `TokenSupplied` is kept by `loadFromDisk`. -/
theorem tokenSupplied_load (w : World) (file : DiskFile) (h : TokenSupplied w) :
    TokenSupplied (loadFromDisk w file).1 := by
  cases file with
  | unreadable m => exact h
  | malformed m => exact h
  | record fields =>
    unfold TokenSupplied
    simp [loadFromDisk, heldToken_append, Event.stepToken]

/-- The invariant `TokenSupplied` is kept by `runDeviceFlow`. -/
theorem tokenSupplied_flow (w : World) (env : DeviceFlowEnv) (h : TokenSupplied w) :
    TokenSupplied (runDeviceFlow w env).1 := by
  unfold TokenSupplied at h ⊢
  rcases runDeviceFlow_cases w env with ⟨_, dcr, tr, _, _, hst⟩ | ⟨_, hst⟩
  · rw [hst]
    simp [heldToken_append, Event.stepToken]
  · rw [hst]
    simp [heldToken_append, Event.stepToken, h]

/-- The invariant `TokenSupplied` is kept by `doRefresh`. -/
theorem tokenSupplied_refresh (w : World) (env : RefreshEnv) (h : TokenSupplied w) :
    TokenSupplied (doRefresh w env).1 := by
  unfold TokenSupplied at h ⊢
  cases hr : (doRefresh w env).2 with
  | none =>
    obtain ⟨tr, hst⟩ := doRefresh_ok_cases w env hr
    rw [hst]
    by_cases ht : tr.RefreshToken = "" <;>
      simp [heldToken_append, Event.stepToken, ht, h]
  | some e =>
    have hne : (doRefresh w env).2 ≠ none := by rw [hr]; simp
    obtain ⟨htm, htr⟩ := doRefresh_error_cases w env hne
    rw [htm]
    rcases htr with htr | htr
    · rw [htr]; exact h
    · rw [htr]
      simp [heldToken_append, Event.stepToken, h]

/-- The invariant `TokenSupplied` is kept by `Start`. -/
theorem tokenSupplied_start (w : World) (env : StartEnv) (h : TokenSupplied w) :
    TokenSupplied (Start w env).1 := by
  have h1 : TokenSupplied (startRestore w env).1 := by
    unfold startRestore
    simp only
    by_cases hc : (loadFromDisk w env.file).2.isSome = true
        ∨ (loadFromDisk w env.file).1.tm.refreshToken = ""
    · rw [if_pos hc]
      exact tokenSupplied_flow _ _ (tokenSupplied_load w env.file h)
    · rw [if_neg hc]
      exact tokenSupplied_load w env.file h
  have hlaunch : ∀ v : World, TokenSupplied v → TokenSupplied (launchRefreshLoop v) := by
    intro v hv
    unfold TokenSupplied at hv ⊢
    simp [launchRefreshLoop, heldToken_append, Event.stepToken, hv]
  have hunload : ∀ v : World, TokenSupplied (unloadState v) := by
    intro v
    unfold TokenSupplied
    simp [unloadState, heldToken_append, Event.stepToken]
  unfold Start
  rcases hA : startRestore w env with ⟨w2, oA⟩
  rw [hA] at h1
  simp only at h1
  rcases oA with (_ | e) | _ | m
  · simp only
    have h3 := tokenSupplied_refresh w2 env.refresh h1
    rcases hR : doRefresh w2 env.refresh with ⟨w3, _ | e⟩
    · rw [hR] at h3
      exact hlaunch w3 h3
    · simp only
      have h5 := tokenSupplied_flow (unloadState w3) env.auth2 (hunload w3)
      rcases hF : runDeviceFlow (unloadState w3) env.auth2 with ⟨w5, (_ | e2) | _ | m2⟩
      · rw [hF] at h5
        exact hlaunch w5 h5
      · rw [hF] at h5; exact h5
      · rw [hF] at h5; exact h5
      · rw [hF] at h5; exact h5
  · exact h1
  · exact h1
  · exact h1

/-- In every reachable state the refresh token held is the one the trace accounts for. -/
theorem reachable_tokenSupplied (w : World) (h : Reachable w) : TokenSupplied w := by
  induction h with
  | fresh a b c d e f g => rfl
  | load w file _ ih => exact tokenSupplied_load w file ih
  | flow w env _ ih => exact tokenSupplied_flow w env ih
  | refresh w env _ ih => exact tokenSupplied_refresh w env ih
  | start w env _ ih => exact tokenSupplied_start w env ih

/-- A token returned by the poll loop is the decoded body of the first response that is not
skipped: the outcomes before it are all skipped, it has an empty error and a non-empty access
token, and the number of requests sent is its position. -/
theorem pollLoop_ok_split (reqErr : Option String) (polls : List (Exchange TokenResponse))
    (sent k : Nat) (tr : TokenResponse)
    (h : pollLoop reqErr polls sent = (.returned (.ok tr), k)) :
    ∃ pre resp rest, polls = pre ++ Exchange.response resp :: rest
      ∧ (∀ o ∈ pre, pollSkipped o = true)
      ∧ pollSkipped (.response resp) = false
      ∧ resp.decoded = tr ∧ tr.Error = "" ∧ tr.AccessToken ≠ ""
      ∧ k = sent + pre.length + 1 := by
  induction polls generalizing sent with
  | nil => cases reqErr <;> simp [pollLoop] at h
  | cons o rest ih =>
    cases reqErr with
    | some e => simp [pollLoop] at h
    | none =>
      have hcons : ∀ (hs : pollSkipped o = true)
          (hrec : pollLoop none rest (sent + 1) = (.returned (.ok tr), k)),
          ∃ pre resp rest1, o :: rest = pre ++ Exchange.response resp :: rest1
            ∧ (∀ x ∈ pre, pollSkipped x = true)
            ∧ pollSkipped (.response resp) = false
            ∧ resp.decoded = tr ∧ tr.Error = "" ∧ tr.AccessToken ≠ ""
            ∧ k = sent + pre.length + 1 := by
        intro hs hrec
        obtain ⟨pre, resp, rest1, hp, hpre, hdec, hd, he, ha, hk⟩ := ih (sent + 1) hrec
        refine ⟨o :: pre, resp, rest1, by rw [hp]; rfl, ?_, hdec, hd, he, ha, ?_⟩
        · intro x hx
          rcases List.mem_cons.mp hx with hx | hx
          · rw [hx]; exact hs
          · exact hpre x hx
        · simp only [List.length_cons]; omega
      cases o with
      | transportError m =>
        simp only [pollLoop] at h
        exact hcons rfl h
      | response resp =>
        simp only [pollLoop] at h
        by_cases hp : resp.decoded.Error = "authorization_pending"
        · rw [if_pos hp] at h
          exact hcons (by simp [pollSkipped, hp]) h
        · rw [if_neg hp] at h
          by_cases he : resp.decoded.Error = ""
          · rw [if_neg (not_not.mpr he)] at h
            by_cases ha : resp.decoded.AccessToken = ""
            · rw [if_neg (not_not.mpr ha)] at h
              exact hcons (by simp [pollSkipped, he, ha]) h
            · rw [if_pos ha] at h
              simp only [Prod.mk.injEq, Outcome.returned.injEq, Result.ok.injEq] at h
              refine ⟨[], resp, rest, rfl, by simp, by simp [pollSkipped, he, ha], h.1, ?_, ?_, ?_⟩
              · rw [← h.1]; exact he
              · rw [← h.1]; exact ha
              · simp only [List.length_nil]; omega
          · rw [if_pos he] at h
            simp at h

/-- The same for `PollForToken`. -/
theorem PollForToken_ok_split (reqErr : Option String) (interval : Int)
    (polls : List (Exchange TokenResponse)) (tr : TokenResponse)
    (h : (PollForToken reqErr interval polls).1 = .returned (.ok tr)) :
    ∃ pre resp rest, polls = pre ++ Exchange.response resp :: rest
      ∧ (∀ o ∈ pre, pollSkipped o = true)
      ∧ pollSkipped (.response resp) = false
      ∧ resp.decoded = tr ∧ tr.Error = "" ∧ tr.AccessToken ≠ "" := by
  unfold PollForToken at h
  by_cases hi : secondsToDuration interval ≤ 0
  · simp [hi] at h
  · rw [if_neg hi] at h
    obtain ⟨pre, resp, rest, hp, hpre, hdec, hd, he, ha, _⟩ :=
      pollLoop_ok_split reqErr polls 0 (pollLoop reqErr polls 0).2 tr (Prod.ext h rfl)
    exact ⟨pre, resp, rest, hp, hpre, hdec, hd, he, ha⟩

/-- C7, refuted: a poll answered with access token `A1` and no refresh token is accepted as
success; `runDeviceFlow` returns no error on a fresh manager, the authorization is recorded
as completed, and the refresh token held is empty. -/
theorem runDeviceFlow_empty_refreshToken :
    Reachable (runDeviceFlow freshWorld noRefreshTokenFlow).1
    ∧ (runDeviceFlow freshWorld noRefreshTokenFlow).2 = .returned none
    ∧ Event.authorized "" ∈ (runDeviceFlow freshWorld noRefreshTokenFlow).1.trace
    ∧ (runDeviceFlow freshWorld noRefreshTokenFlow).1.tm.accessToken = "A1"
    ∧ (runDeviceFlow freshWorld noRefreshTokenFlow).1.tm.refreshToken = "" := by
  refine ⟨?_, by decide, by decide, by decide, by decide⟩
  exact Reachable.flow _ _ (Reachable.fresh _ _ _ _ _ _ _)

/-- C7, amended: in every state reachable through `Start`, `runDeviceFlow`, `doRefresh` and
`loadFromDisk` from a freshly constructed manager, the refresh token held is the one most
recently supplied (by a stored poll response, by a restored record, or by a stored refresh
answer carrying a non-empty `refresh_token`), or empty if none was supplied or `Start` emptied
it since; so a non-empty refresh token is the `refresh_token` of such a response, record or
answer. When `runDeviceFlow` returns no error, the poll response accepted as success is the
first one that is neither pending nor empty, it has a non-empty access token, and the refresh
token held afterwards is the `refresh_token` field of that response, so it is non-empty
exactly when that field is. -/
theorem refreshToken_supplied (w : World) (h : Reachable w) :
    w.tm.refreshToken = heldToken w.trace
    ∧ (w.tm.refreshToken ≠ "" → ∃ e ∈ w.trace, e.supplied = some w.tm.refreshToken)
    ∧ (∀ env : DeviceFlowEnv, (runDeviceFlow w env).2 = .returned none →
        ∃ dcr pre resp rest,
          InitiateDeviceCodeFlow env.deviceReqErr env.issuance = .ok dcr
          ∧ env.polls = pre ++ Exchange.response resp :: rest
          ∧ (∀ o ∈ pre, pollSkipped o = true)
          ∧ pollSkipped (.response resp) = false
          ∧ (PollForToken env.tokenReqErr dcr.Interval env.polls).1
              = .returned (.ok resp.decoded)
          ∧ resp.decoded.Error = ""
          ∧ resp.decoded.AccessToken ≠ ""
          ∧ (runDeviceFlow w env).1.tm.accessToken = resp.decoded.AccessToken
          ∧ (runDeviceFlow w env).1.tm.refreshToken = resp.decoded.RefreshToken
          ∧ ((runDeviceFlow w env).1.tm.refreshToken ≠ "" ↔ resp.decoded.RefreshToken ≠ "")
          ∧ (runDeviceFlow w env).1.trace
              = w.trace ++ [.deviceFlow, .authorized resp.decoded.RefreshToken,
                  .writeFile w.tm.tokenFile resp.decoded.RefreshToken 0o600]) := by
  have hinv : w.tm.refreshToken = heldToken w.trace := reachable_tokenSupplied w h
  refine ⟨hinv, ?_, ?_⟩
  · intro hne
    rw [hinv] at hne ⊢
    exact heldToken_supplied w.trace hne
  · intro env hret
    rcases runDeviceFlow_cases w env with ⟨_, dcr, tr, hi, hp, hst⟩ | ⟨hne, _⟩
    · obtain ⟨pre, resp, rest, hsplit, hpre, hdec, hd, he, ha⟩ :=
        PollForToken_ok_split _ _ _ tr hp
      subst hd
      refine ⟨dcr, pre, resp, rest, hi, hsplit, hpre, hdec, hp, he, ha, ?_, ?_, ?_, ?_⟩
      · rw [hst]
      · rw [hst]
      · rw [hst]
      · rw [hst]
    · exact absurd hret hne

/-- Witness for C7: the state after a device-code flow granting `A1` and `R1`. -/
theorem refreshToken_supplied_witness :
    Reachable (runDeviceFlow freshWorld grantedFlow).1
    ∧ (runDeviceFlow freshWorld grantedFlow).1.tm.refreshToken
        = heldToken (runDeviceFlow freshWorld grantedFlow).1.trace
    ∧ (runDeviceFlow freshWorld grantedFlow).1.tm.refreshToken = "R1" :=
  ⟨Reachable.flow _ _ (Reachable.fresh _ _ _ _ _ _ _),
   (refreshToken_supplied (runDeviceFlow freshWorld grantedFlow).1
      (Reachable.flow _ _ (Reachable.fresh _ _ _ _ _ _ _))).1,
   by decide⟩

/-- The result of `Start` in terms of the calls it makes. -/
theorem Start_result (w : World) (env : StartEnv) :
    (Start w env).2
      = match (startRestore w env).2 with
        | .returned none =>
          match (doRefresh (startRestore w env).1 env.refresh).2 with
          | none => .returned none
          | some _ =>
            (runDeviceFlow (unloadState (doRefresh (startRestore w env).1 env.refresh).1)
              env.auth2).2
        | r => r := by
  unfold Start
  rcases hA : startRestore w env with ⟨w2, (_ | e) | _ | m⟩
  · rcases hR : doRefresh w2 env.refresh with ⟨w3, _ | e⟩
    · simp [hR]
    · simp only [hR]
      rcases hF : runDeviceFlow (unloadState w3) env.auth2 with ⟨w5, (_ | e2) | _ | m2⟩ <;> simp
  · simp
  · simp
  · simp

/-- The state `Start` ends in when the eager refresh fails: that of the single device-code
flow run after unloading, with the launch of the refresh loop appended if the flow succeeds. -/
theorem Start_state_after_failed_refresh (w : World) (env : StartEnv)
    (hA : (startRestore w env).2 = .returned none)
    (hR : (doRefresh (startRestore w env).1 env.refresh).2 ≠ none) :
    (Start w env).1
      = if (runDeviceFlow (unloadState (doRefresh (startRestore w env).1 env.refresh).1)
              env.auth2).2 = .returned none
        then launchRefreshLoop
          (runDeviceFlow (unloadState (doRefresh (startRestore w env).1 env.refresh).1)
            env.auth2).1
        else (runDeviceFlow (unloadState (doRefresh (startRestore w env).1 env.refresh).1)
            env.auth2).1 := by
  unfold Start
  rcases hA2 : startRestore w env with ⟨w2, oA⟩
  rw [hA2] at hA hR
  simp only at hA hR
  subst hA
  rcases hR2 : doRefresh w2 env.refresh with ⟨w3, _ | e⟩
  · rw [hR2] at hR; exact absurd rfl hR
  · simp only
    rcases hF : runDeviceFlow (unloadState w3) env.auth2 with ⟨w5, (_ | e2) | _ | m2⟩ <;>
      simp [hR2, hF]

/-- A device-code flow appends exactly one start of a flow to the trace. -/
theorem runDeviceFlow_count (w : World) (env : DeviceFlowEnv) :
    (runDeviceFlow w env).1.trace.count .deviceFlow = w.trace.count .deviceFlow + 1 := by
  rcases runDeviceFlow_cases w env with ⟨_, dcr, tr, _, _, hst⟩ | ⟨_, hst⟩
  · rw [hst]
    simp [List.count_append, List.count_cons]
  · rw [hst]
    simp [List.count_append, List.count_cons]

/-- On a freshly constructed manager the test of the first `if` of `Start` amounts to the
refresh token being empty after the restore. -/
theorem startRestore_new (a b c d f g k : String) (env : StartEnv) :
    startRestore (newWorld a b c d f g k) env
      = if (loadFromDisk (newWorld a b c d f g k) env.file).1.tm.refreshToken = ""
        then runDeviceFlow (loadFromDisk (newWorld a b c d f g k) env.file).1 env.auth1
        else ((loadFromDisk (newWorld a b c d f g k) env.file).1, .returned none) := by
  unfold startRestore
  simp only
  cases hfile : env.file with
  | unreadable m => simp [loadFromDisk, newWorld, NewTokenManager]
  | malformed m => simp [loadFromDisk, newWorld, NewTokenManager]
  | record fields => simp [loadFromDisk]

/-- When the first `if` of `Start` does not end with a nil error, `Start` ends as it did. -/
theorem Start_of_restore_failed (w : World) (env : StartEnv)
    (h : (startRestore w env).2 ≠ .returned none) : Start w env = startRestore w env := by
  unfold Start
  rcases hA : startRestore w env with ⟨w2, (_ | e) | _ | m⟩
  · rw [hA] at h; exact absurd rfl h
  · rfl
  · rfl
  · rfl

/-- When `Start` returns an error on a freshly constructed manager, which device-code flows
were run and how `Start` ends after the eager refresh. -/
theorem Start_result_new (a b c d f g k : String) (env : StartEnv) (e : AuthError) :
    ((Start (newWorld a b c d f g k) env).2 = .returned (some e) ↔
      ((loadFromDisk (newWorld a b c d f g k) env.file).1.tm.refreshToken = ""
        ∧ (runDeviceFlow (loadFromDisk (newWorld a b c d f g k) env.file).1 env.auth1).2
            = .returned (some e))
      ∨ ((startRestore (newWorld a b c d f g k) env).2 = .returned none
        ∧ (eagerRefresh (newWorld a b c d f g k) env).2 ≠ none
        ∧ (reauthenticate (newWorld a b c d f g k) env).2 = .returned (some e)))
    ∧ ((loadFromDisk (newWorld a b c d f g k) env.file).1.tm.refreshToken = "" →
        (runDeviceFlow (loadFromDisk (newWorld a b c d f g k) env.file).1 env.auth1).2
            = .returned (some e) →
        (Start (newWorld a b c d f g k) env).1.trace.count .deviceFlow = 1)
    ∧ ((startRestore (newWorld a b c d f g k) env).2 = .returned none →
        (eagerRefresh (newWorld a b c d f g k) env).2 ≠ none →
        (unloadState (eagerRefresh (newWorld a b c d f g k) env).1).tm.refreshToken = ""
        ∧ (unloadState (eagerRefresh (newWorld a b c d f g k) env).1).tm.accessToken = ""
        ∧ (Start (newWorld a b c d f g k) env).2 = (reauthenticate (newWorld a b c d f g k) env).2
        ∧ (Start (newWorld a b c d f g k) env).1.trace.count .deviceFlow
            = (eagerRefresh (newWorld a b c d f g k) env).1.trace.count .deviceFlow + 1
        ∧ ((reauthenticate (newWorld a b c d f g k) env).2 = .returned none →
            (Start (newWorld a b c d f g k) env).2 = .returned none
            ∧ Event.loopStarted ∈ (Start (newWorld a b c d f g k) env).1.trace))
    ∧ ((startRestore (newWorld a b c d f g k) env).2 = .returned none →
        (eagerRefresh (newWorld a b c d f g k) env).2 = none →
        (Start (newWorld a b c d f g k) env).2 = .returned none) := by
  have hres := Start_result (newWorld a b c d f g k) env
  have hnew := startRestore_new a b c d f g k env
  refine ⟨?_, ?_, ?_, ?_⟩
  · rw [hres]
    unfold reauthenticate eagerRefresh
    by_cases hrt : (loadFromDisk (newWorld a b c d f g k) env.file).1.tm.refreshToken = ""
    · rw [if_pos hrt] at hnew
      rcases hA : (startRestore (newWorld a b c d f g k) env).2 with (_ | e1) | _ | m
      · have hA1 : (runDeviceFlow (loadFromDisk (newWorld a b c d f g k) env.file).1
            env.auth1).2 = .returned none := by rw [← hnew]; exact hA
        rcases hR : (doRefresh (startRestore (newWorld a b c d f g k) env).1 env.refresh).2
          with _ | e2
        · simp [hrt, hA1]
        · simp [hrt, hA1]
      · have hA1 : (runDeviceFlow (loadFromDisk (newWorld a b c d f g k) env.file).1
            env.auth1).2 = .returned (some e1) := by rw [← hnew]; exact hA
        simp [hrt, hA1]
      · have hA1 : (runDeviceFlow (loadFromDisk (newWorld a b c d f g k) env.file).1
            env.auth1).2 = .running := by rw [← hnew]; exact hA
        simp [hrt, hA1]
      · have hA1 : (runDeviceFlow (loadFromDisk (newWorld a b c d f g k) env.file).1
            env.auth1).2 = .panicked m := by rw [← hnew]; exact hA
        simp [hrt, hA1]
    · rw [if_neg hrt] at hnew
      have hA : (startRestore (newWorld a b c d f g k) env).2 = .returned none := by
        rw [hnew]
      rw [hA]
      rcases hR : (doRefresh (startRestore (newWorld a b c d f g k) env).1 env.refresh).2
        with _ | e2
      · simp [hrt]
      · simp [hrt]
  · intro hrt hfail
    rw [if_pos hrt] at hnew
    have hA : (startRestore (newWorld a b c d f g k) env).2 ≠ .returned none := by
      rw [hnew, hfail]; simp
    rw [Start_of_restore_failed _ _ hA, hnew, runDeviceFlow_count]
    cases hfile : env.file <;> simp [loadFromDisk, newWorld]
  · intro hA hR
    have hst := Start_state_after_failed_refresh (newWorld a b c d f g k) env hA hR
    have hres2 : (Start (newWorld a b c d f g k) env).2
        = (reauthenticate (newWorld a b c d f g k) env).2 := by
      rw [hres, hA]
      unfold reauthenticate eagerRefresh
      unfold eagerRefresh at hR
      rcases hR2 : (doRefresh (startRestore (newWorld a b c d f g k) env).1 env.refresh).2
        with _ | e2
      · exact absurd hR2 hR
      · rfl
    have hcount := runDeviceFlow_count
      (unloadState (eagerRefresh (newWorld a b c d f g k) env).1) env.auth2
    refine ⟨rfl, rfl, hres2, ?_, ?_⟩
    · rw [hst]
      unfold eagerRefresh at hcount ⊢
      by_cases hF : (runDeviceFlow (unloadState
          (doRefresh (startRestore (newWorld a b c d f g k) env).1 env.refresh).1)
          env.auth2).2 = .returned none
      · rw [if_pos hF]
        simp only [launchRefreshLoop, List.count_append]
        rw [hcount]
        simp [unloadState, List.count_cons]
      · rw [if_neg hF, hcount]
        simp [unloadState]
    · intro hF
      refine ⟨by rw [hres2]; exact hF, ?_⟩
      rw [hst]
      unfold reauthenticate eagerRefresh at hF
      rw [if_pos hF]
      simp [launchRefreshLoop]
  · intro hA hR
    rw [hres, hA]
    unfold eagerRefresh at hR
    simp [hR]

/-- The state `Start` ends in when the eager refresh succeeds: that of the refresh, with the
launch of the refresh loop appended. -/
theorem Start_state_after_refresh (w : World) (env : StartEnv)
    (hA : (startRestore w env).2 = .returned none)
    (hR : (eagerRefresh w env).2 = none) :
    (Start w env).1 = launchRefreshLoop (eagerRefresh w env).1 := by
  unfold eagerRefresh at hR ⊢
  unfold Start
  rcases hA2 : startRestore w env with ⟨w2, oA⟩
  rw [hA2] at hA hR
  simp only at hA hR
  subst hA
  rcases hR2 : doRefresh w2 env.refresh with ⟨w3, _ | e⟩
  · simp [hR2]
  · rw [hR2] at hR; simp at hR

/-- What `Start` does after a failed eager refresh: the failed refresh left the manager as
it was; the re-authentication runs on that manager with both tokens emptied; `Start` ends in
the state of the re-authentication, and if that does not return nil, both tokens are empty in
the state `Start` ends in; if it returns nil, they are those of the stored poll response. -/
theorem Start_after_failed_refresh (w : World) (env : StartEnv)
    (hA : (startRestore w env).2 = .returned none)
    (hR : (eagerRefresh w env).2 ≠ none) :
    (eagerRefresh w env).1.tm = (startRestore w env).1.tm
    ∧ reauthenticate w env
        = runDeviceFlow
            { tm := { (startRestore w env).1.tm with refreshToken := "", accessToken := "" }
              trace := (eagerRefresh w env).1.trace ++ [.unloaded] } env.auth2
    ∧ (Start w env).1
        = (if (reauthenticate w env).2 = .returned none
           then launchRefreshLoop (reauthenticate w env).1 else (reauthenticate w env).1)
    ∧ ((reauthenticate w env).2 ≠ .returned none →
        (Start w env).1.tm
            = { (startRestore w env).1.tm with refreshToken := "", accessToken := "" }
        ∧ (Start w env).1.tm.refreshToken = ""
        ∧ (Start w env).1.tm.accessToken = "")
    ∧ ((reauthenticate w env).2 = .returned none →
        ∃ tr : TokenResponse,
          (Start w env).1.tm
            = { (startRestore w env).1.tm with
                  accessToken := tr.AccessToken
                  refreshToken := tr.RefreshToken
                  expiresAt := Time.Add env.auth2.now (secondsToDuration tr.ExpiresIn) }
          ∧ Event.unloaded ∈ (Start w env).1.trace) := by
  have htm : (eagerRefresh w env).1.tm = (startRestore w env).1.tm :=
    (doRefresh_error_cases (startRestore w env).1 env.refresh hR).1
  have hre : reauthenticate w env
      = runDeviceFlow
          { tm := { (startRestore w env).1.tm with refreshToken := "", accessToken := "" }
            trace := (eagerRefresh w env).1.trace ++ [.unloaded] } env.auth2 := by
    unfold reauthenticate unloadState
    rw [htm]
  have hst : (Start w env).1
      = (if (reauthenticate w env).2 = .returned none
         then launchRefreshLoop (reauthenticate w env).1 else (reauthenticate w env).1) :=
    Start_state_after_failed_refresh w env hA hR
  refine ⟨htm, hre, hst, ?_, ?_⟩
  · intro hF
    rw [hst, if_neg hF, hre]
    rw [hre] at hF
    rcases runDeviceFlow_cases
        { tm := { (startRestore w env).1.tm with refreshToken := "", accessToken := "" }
          trace := (eagerRefresh w env).1.trace ++ [.unloaded] } env.auth2
      with ⟨hok, _⟩ | ⟨_, hs⟩
    · exact absurd hok hF
    · rw [hs]
      exact ⟨rfl, rfl, rfl⟩
  · intro hF
    rw [hst, if_pos hF, hre]
    rw [hre] at hF
    rcases runDeviceFlow_cases
        { tm := { (startRestore w env).1.tm with refreshToken := "", accessToken := "" }
          trace := (eagerRefresh w env).1.trace ++ [.unloaded] } env.auth2
      with ⟨_, dcr, tr, _, _, hs⟩ | ⟨hne, _⟩
    · refine ⟨tr, ?_, ?_⟩
      · rw [hs]; rfl
      · rw [hs]; simp [launchRefreshLoop]
    · exact absurd hF hne

/-- C6: on a freshly constructed manager, `Start` returns the error `e` exactly when (a) no
refresh token is held after the restore and the first device-code flow returns `e`, or (b) the
first `if` ends well, the eager refresh fails and the re-authentication returns `e`. In case
(a) one device-code flow was run and `Start` ends as that flow left things. After a failed
eager refresh the manager is the one before the refresh with the refresh token and the access
token emptied, exactly one more device-code flow is run, on that manager, and `Start` ends as
that flow does: with both tokens empty in its final state if the flow does not return nil, and
returning nil, with the tokens of the stored poll response and the refresh loop launched, if
the flow returns nil. When the eager refresh succeeds `Start` returns nil and keeps the state
of the refresh. -/
theorem Start_fails_iff (a b c d f g k : String) (env : StartEnv) (e : AuthError) :
    ((Start (newWorld a b c d f g k) env).2 = .returned (some e) ↔
      ((loadFromDisk (newWorld a b c d f g k) env.file).1.tm.refreshToken = ""
        ∧ (runDeviceFlow (loadFromDisk (newWorld a b c d f g k) env.file).1 env.auth1).2
            = .returned (some e))
      ∨ ((startRestore (newWorld a b c d f g k) env).2 = .returned none
        ∧ (eagerRefresh (newWorld a b c d f g k) env).2 ≠ none
        ∧ (reauthenticate (newWorld a b c d f g k) env).2 = .returned (some e)))
    ∧ ((loadFromDisk (newWorld a b c d f g k) env.file).1.tm.refreshToken = "" →
        (runDeviceFlow (loadFromDisk (newWorld a b c d f g k) env.file).1 env.auth1).2
            = .returned (some e) →
        (Start (newWorld a b c d f g k) env).1.trace.count .deviceFlow = 1)
    ∧ ((startRestore (newWorld a b c d f g k) env).2 = .returned none →
        (eagerRefresh (newWorld a b c d f g k) env).2 ≠ none →
        (unloadState (eagerRefresh (newWorld a b c d f g k) env).1).tm.refreshToken = ""
        ∧ (unloadState (eagerRefresh (newWorld a b c d f g k) env).1).tm.accessToken = ""
        ∧ (Start (newWorld a b c d f g k) env).2 = (reauthenticate (newWorld a b c d f g k) env).2
        ∧ (Start (newWorld a b c d f g k) env).1.trace.count .deviceFlow
            = (eagerRefresh (newWorld a b c d f g k) env).1.trace.count .deviceFlow + 1
        ∧ ((reauthenticate (newWorld a b c d f g k) env).2 = .returned none →
            (Start (newWorld a b c d f g k) env).2 = .returned none
            ∧ Event.loopStarted ∈ (Start (newWorld a b c d f g k) env).1.trace))
    ∧ ((startRestore (newWorld a b c d f g k) env).2 = .returned none →
        (eagerRefresh (newWorld a b c d f g k) env).2 = none →
        (Start (newWorld a b c d f g k) env).2 = .returned none)
    ∧ ((startRestore (newWorld a b c d f g k) env).2 ≠ .returned none →
        Start (newWorld a b c d f g k) env = startRestore (newWorld a b c d f g k) env)
    ∧ ((startRestore (newWorld a b c d f g k) env).2 = .returned none →
        (eagerRefresh (newWorld a b c d f g k) env).2 = none →
        (Start (newWorld a b c d f g k) env).1
          = launchRefreshLoop (eagerRefresh (newWorld a b c d f g k) env).1)
    ∧ ((startRestore (newWorld a b c d f g k) env).2 = .returned none →
        (eagerRefresh (newWorld a b c d f g k) env).2 ≠ none →
        (eagerRefresh (newWorld a b c d f g k) env).1.tm
            = (startRestore (newWorld a b c d f g k) env).1.tm
        ∧ reauthenticate (newWorld a b c d f g k) env
            = runDeviceFlow
                { tm := { (startRestore (newWorld a b c d f g k) env).1.tm with
                            refreshToken := "", accessToken := "" }
                  trace := (eagerRefresh (newWorld a b c d f g k) env).1.trace ++ [.unloaded] }
                env.auth2
        ∧ (Start (newWorld a b c d f g k) env).1
            = (if (reauthenticate (newWorld a b c d f g k) env).2 = .returned none
               then launchRefreshLoop (reauthenticate (newWorld a b c d f g k) env).1
               else (reauthenticate (newWorld a b c d f g k) env).1)
        ∧ ((reauthenticate (newWorld a b c d f g k) env).2 ≠ .returned none →
            (Start (newWorld a b c d f g k) env).1.tm
                = { (startRestore (newWorld a b c d f g k) env).1.tm with
                      refreshToken := "", accessToken := "" }
            ∧ (Start (newWorld a b c d f g k) env).1.tm.refreshToken = ""
            ∧ (Start (newWorld a b c d f g k) env).1.tm.accessToken = "")
        ∧ ((reauthenticate (newWorld a b c d f g k) env).2 = .returned none →
            ∃ tr : TokenResponse,
              (Start (newWorld a b c d f g k) env).1.tm
                = { (startRestore (newWorld a b c d f g k) env).1.tm with
                      accessToken := tr.AccessToken
                      refreshToken := tr.RefreshToken
                      expiresAt := Time.Add env.auth2.now (secondsToDuration tr.ExpiresIn) }
              ∧ Event.unloaded ∈ (Start (newWorld a b c d f g k) env).1.trace)) := by
  obtain ⟨h1, h2, h3, h4⟩ := Start_result_new a b c d f g k env e
  exact ⟨h1, h2, h3, h4,
    fun hA => Start_of_restore_failed _ env hA,
    fun hA hR => Start_state_after_refresh _ env hA hR,
    fun hA hR => Start_after_failed_refresh _ env hA hR⟩

/-- Witness for C6: the refresh token `R0` is restored, the eager refresh is refused with
`invalid_grant` and the re-authentication is refused: `Start` returns the error of the
re-authentication and both tokens are empty in the state it ends in. With a re-authentication
that is granted, `Start` returns nil and holds the granted tokens. -/
theorem Start_fails_iff_witness :
    (startRestore (newWorld "t" "c" "" "" "d" "u" "s") revokedStart).2 = .returned none
    ∧ (eagerRefresh (newWorld "t" "c" "" "" "d" "u" "s") revokedStart).2 ≠ none
    ∧ (reauthenticate (newWorld "t" "c" "" "" "d" "u" "s") revokedStart).2 ≠ .returned none
    ∧ (Start (newWorld "t" "c" "" "" "d" "u" "s") revokedStart).1.tm.refreshToken = ""
    ∧ (Start (newWorld "t" "c" "" "" "d" "u" "s") revokedStart).1.tm.accessToken = ""
    ∧ (Start (newWorld "t" "c" "" "" "d" "u" "s") revokedStart).2
        = .returned (some (.authStatus 500 "unavailable"))
    ∧ (Start (newWorld "t" "c" "" "" "d" "u" "s") reauthorizedStart).2 = .returned none
    ∧ (Start (newWorld "t" "c" "" "" "d" "u" "s") reauthorizedStart).1.tm.refreshToken = "R1"
    ∧ (Start (newWorld "t" "c" "" "" "d" "u" "s") reauthorizedStart).1.tm.accessToken = "A1" :=
  ⟨by decide, by decide, by decide,
   (((Start_fails_iff "t" "c" "" "" "d" "u" "s" revokedStart
        (.authStatus 500 "unavailable")).2.2.2.2.2.2 (by decide) (by decide)).2.2.2.1
      (by decide)).2.1,
   (((Start_fails_iff "t" "c" "" "" "d" "u" "s" revokedStart
        (.authStatus 500 "unavailable")).2.2.2.2.2.2 (by decide) (by decide)).2.2.2.1
      (by decide)).2.2,
   by decide, by decide, by decide, by decide⟩

end EwsOauthProxy
